import Mathlib

set_option maxRecDepth 100000

/-!
Formal model of the obfuscated execution engine in
`src/samples/level13_MetamorphicDropper.c`, together with proofs of the
behavioural properties claimed by its specification.

Modelling conventions:
- C `unsigned char` values are `Nat` with explicit `&&& 0xFF` masking at
  the places the source masks; `unsigned int` arithmetic wraps with
  `% 2^32`;  C `int` arithmetic (only used by the opaque predicates) is
  modelled on `Int` with explicit twos-complement wrapping (`wrap32`)
  and C truncated remainder (`Int.tmod`).
- the RC4 table `S` (a C array of 256 bytes) is a `List Nat`; array
  reads are `List.getD`, array writes are `List.set`.
- OS collaborators (ptrace, gettimeofday, /proc contents, mprotect,
  uname, stat, fork/exec statuses) and malloc outcomes are inputs,
  collected in an environment record `Env`; each helper function is a
  direct transcription of the corresponding C function over `Env`.
- `malloc` outcomes are an oracle `Env.alloc : Nat → Bool` indexed by a
  running allocation counter, threaded through the run in program order.
-/

/-! ## RC4 stream cipher (lines 34-55 of the source) -/

/-- The RC4 cipher context `_rc4`: table `S[256]` and cursors `i`, `j`. -/
structure RC4 where
  S : List Nat
  i : Nat
  j : Nat

/-- The three-assignment byte swap `t = S[a]; S[a] = S[b]; S[b] = t`
used by both `_rc4i` and `_rc4x`. -/
def swapS (S : List Nat) (a b : Nat) : List Nat :=
  (S.set a (S.getD b 0)).set b (S.getD a 0)

/-- The body of the `_rc4i` key-scheduling loop at position `i`:
accumulate `j = (j + S[i] + k[i % kl]) & 0xFF` and swap `S[i]` with
`S[j]`. -/
def ksaStep (k : List Nat) (acc : List Nat × Nat) (i : Nat) : List Nat × Nat :=
  let j := (acc.2 + acc.1.getD i 0 + k.getD (i % k.length) 0) &&& 0xFF
  (swapS acc.1 i j, j)

/-- RC4 key schedule `_rc4i`: start from the identity table
`S[i] = i`, then run `ksaStep` for each of the 256 positions;
finally reset both cursors to 0. -/
def _rc4i (k : List Nat) : RC4 :=
  ⟨((List.range 256).foldl (ksaStep k) (List.range 256, 0)).1, 0, 0⟩

/-- One iteration of the `_rc4x` loop body: advance `i`, advance `j`,
swap `S[i]` and `S[j]`, and emit the keystream byte
`S[(S[i] + S[j]) & 0xFF]`. -/
def rc4step (c : RC4) : RC4 × Nat :=
  let i := (c.i + 1) &&& 0xFF
  let j := (c.j + c.S.getD i 0) &&& 0xFF
  let S := swapS c.S i j
  (⟨S, i, j⟩, S.getD ((S.getD i 0 + S.getD j 0) &&& 0xFF) 0)

/-- RC4 keystream application `_rc4x`: XOR each data byte with the next
keystream byte, mutating the context as it goes.  Returns the final
context together with the transformed data. -/
def _rc4x : RC4 → List Nat → RC4 × List Nat
  | c, [] => (c, [])
  | c, b :: rest =>
    let s := rc4step c
    let r := _rc4x s.1 rest
    (r.1, (b ^^^ s.2) :: r.2)

/-- The XOR-masked embedded key `_ks` (14 bytes). -/
def _ks : List Nat := [0xc2, 0xcd, 0x95, 0xd6, 0xd1, 0xfa, 0xce, 0x96,
                      0xdc, 0xfa, 0x97, 0x95, 0x97, 0x91]

/-- `KS_LEN`: length of the masked key. -/
def KS_LEN : Nat := 14

/-- `KS_MASK`: the single-byte XOR mask protecting the key. -/
def KS_MASK : Nat := 0xa5

/-! ## Encrypted string table and key recovery (lines 61-142) -/

/-- The RC4-encrypted string table `_st` (174 bytes). -/
def _st : List Nat := [
  0x92, 0x97, 0xc7, 0xbb, 0xe5, 0xf1, 0x8a, 0xc4,
  0xbe, 0xb2, 0x69, 0x0b, 0x9d, 0x9d, 0x25, 0x1e,
  0x6c, 0x42, 0x8b, 0xb9, 0xa0, 0x11, 0x62, 0xf1,
  0x8e, 0xdb, 0xa1, 0xfe, 0x21, 0x10, 0x97, 0x82,
  0x37, 0x6e, 0x72, 0x4f, 0x83, 0xbd, 0x8b, 0xdb,
  0xa2, 0xb6, 0x8a, 0xdd, 0xbe, 0xa7, 0x21, 0x4c,
  0x97, 0x96, 0x30, 0x2c, 0x6f, 0x46, 0x8b, 0xfb,
  0xaf, 0x50, 0x6c, 0xc4, 0x06, 0xc6, 0xce, 0xc8,
  0xf3, 0x5d, 0xb5, 0xa1, 0x82, 0x6f, 0xf3, 0x91,
  0xf1, 0x8a, 0xc4, 0xbe, 0xb2, 0x6b, 0x0d, 0x91,
  0x9c, 0x28, 0x31, 0x6b, 0x04, 0x9d, 0xbd, 0xbd,
  0x96, 0xc4, 0xa1, 0xf9, 0x2e, 0x48, 0x8a, 0xce,
  0x7e, 0x35, 0x72, 0x5a, 0xc1, 0xb0, 0xa2, 0x5c,
  0x73, 0x92, 0x13, 0xdc, 0x83, 0xc9, 0xe2, 0x0d,
  0xe7, 0xa9, 0xd1, 0x28, 0xa8, 0x20, 0xe5, 0x64,
  0xf8, 0xc9, 0x9c, 0xd5, 0x8a, 0x21, 0xb7, 0x1a,
  0x9f, 0xe2, 0xf1, 0x8e, 0xdb, 0xa1, 0xfe, 0x21,
  0x10, 0x97, 0x82, 0x37, 0x6e, 0x6c, 0x5e, 0x8f,
  0xa1, 0xb9, 0x4c, 0x8a, 0x8c, 0xc8, 0xad, 0xf8,
  0x7c, 0x33, 0x9b, 0x8a, 0xf1, 0x9a, 0xcc, 0xb8,
  0xb2, 0x60, 0x16, 0x9e, 0x82, 0xf1, 0x9c, 0xc0,
  0xa0, 0xb2, 0x7d, 0x0b, 0xf3, 0x9d]

/-- The mutable key-recovery state: the `_key_ready` latch and the
recovered-key buffer `_rk` (a zero-initialised global array). -/
structure KeyState where
  key_ready : Bool
  rk : List Nat

/-- Initial key-recovery state: `_key_ready = 0` and `_rk` all zeroes. -/
def initKeyState : KeyState := ⟨false, List.replicate KS_LEN 0⟩

/-- `_recover_key`: if the ready latch is set, do nothing; otherwise
unmask `_ks` into `_rk` and set the latch.  The guard
`(_op * _op + _op) % 2 != 0` over `_op = (unsigned int) getpid()`
(computed in wrapping 32-bit unsigned arithmetic) selects the dead
`^ 0xFF` branch when true and the live `^ mask` branch when false. -/
def _recover_key (pid : Nat) (s : KeyState) : KeyState :=
  if s.key_ready then s
  else
    { key_ready := true
      rk :=
        if ((pid % 2 ^ 32) * (pid % 2 ^ 32) % 2 ^ 32 + pid % 2 ^ 32) % 2 ^ 32 % 2 ≠ 0 then
          _ks.map (fun b => b ^^^ 0xFF)
        else
          _ks.map (fun b => b ^^^ KS_MASK) }

/-- The steady-state recovered key: every byte of `_ks` XOR-ed with
`KS_MASK`.  By `recover_key_idempotent` this is the value `_rk` holds
after any call to `_recover_key`, for every pid. -/
def _rk_recovered : List Nat := _ks.map (fun b => b ^^^ KS_MASK)

/-- The decode step of `_ds` once its buffer is allocated: copy
`len` bytes of `_st` starting at `off` and run a freshly initialised
RC4 context (keyed with the recovered key) over them. -/
def decodeSlice (off len : Nat) : List Nat :=
  (_rc4x (_rc4i _rk_recovered) ((_st.drop off).take len)).2

/-! ## Environment of collaborator outcomes -/

/-- Outcomes of all external collaborators consumed during one run:
OS introspection results, the malloc oracle (indexed by a running
allocation count), and the child-process exit statuses.  `fetchExit`
and `execExit` are `some status` when the child ran to a normal exit,
and `none` when the fork failed or the child did not exit normally. -/
structure Env where
  sentinel : Int
  ptraceDenied : Bool
  elapsed : Int
  tracerPidVal : Option Nat
  mprotectOk : Bool
  unameOk : Bool
  sysname : List Nat
  markerExists : Bool
  alloc : Nat → Bool
  fetchExit : Option Nat
  execExit : Option Nat

/-- `_ds`: decrypt the `(off, len)` table entry.  `malloc` is the only
failure path: when the allocation oracle denies the request the result
is `none` (C returns `NULL`); otherwise the decoded bytes.  The second
component is the advanced allocation counter. -/
def _ds (env : Env) (off len cnt : Nat) : Option (List Nat) × Nat :=
  (if env.alloc cnt then some (decodeSlice off len) else none, cnt + 1)

/-! ## Anti-debugging guards and behaviour-flag mutator (lines 173-301) -/

/-- `_ad_ptrace`: returns 1 when `ptrace(PTRACE_TRACEME)` is denied
(a tracer is already attached), else 0. -/
def _ad_ptrace (env : Env) : Nat :=
  if env.ptraceDenied then 1 else 0

/-- `_ad_timing`: returns 1 when the measured duration of the busy loop
exceeds 500000 microseconds, else 0. -/
def _ad_timing (env : Env) : Nat :=
  if 500000 < env.elapsed then 1 else 0

/-- `_ad_proc`: decode the status path and the tracer field name (two
allocations); when either decode fails report 0 (clear).  Otherwise
scan `/proc/self/status`: `tracerPidVal` is the parsed integer of the
tracer field when that line is found (`none` when the file cannot be
opened or the field is absent); nonzero means traced. -/
def _ad_proc (env : Env) (cnt : Nat) : Nat × Nat :=
  let path := (_ds env 130 17 cnt).1
  let needle := (_ds env 147 9 (cnt + 1)).1
  let traced :=
    match path, needle with
    | some _, some _ =>
      match env.tracerPidVal with
      | some v => if v ≠ 0 then 1 else 0
      | none => 0
    | _, _ => 0
  (traced, cnt + 2)

/-- `_hide_proc`: decode `/proc/self/mem` (one allocation) and write
zeroes into it; no observable effect on the run beyond the allocation
counter — failures are ignored. -/
def _hide_proc (env : Env) (cnt : Nat) : Nat := (_ds env 23 14 cnt).2

/-- The behaviour flag `_sm_flag`, initially 0; `_self_modify` sets it
to 1 when `mprotect` grants write permission and leaves it unchanged
when `mprotect` fails. -/
def _self_modify (mprotectOk : Bool) (flag : Bool) : Bool :=
  if mprotectOk then true else flag

/-- `_sm_check`: return the current value of `_sm_flag`. -/
def _sm_check (flag : Bool) : Bool := flag

/-- Two's-complement wrapping of an integer to the `int` range. -/
def wrap32 (n : Int) : Int := (n + 2 ^ 31) % 2 ^ 32 - 2 ^ 31

/-- `_opaque_true`: `(x * (x + 1)) % 2 == 0` in wrapping `int`
arithmetic with C truncated remainder; returns the C boolean 1/0. -/
def _opaque_true (x : Int) : Int :=
  if (wrap32 (x * wrap32 (x + 1))).tmod 2 = 0 then 1 else 0

/-- `_opaque_false`: `(x * x + x + 1) % 2 == 0` in wrapping `int`
arithmetic with C truncated remainder; returns the C boolean 1/0. -/
def _opaque_false (x : Int) : Int :=
  if (wrap32 (wrap32 (wrap32 (x * x) + x) + 1)).tmod 2 = 0 then 1 else 0

/-- `_check_os`: 0 when `uname` fails; 0 when the decode of the target
OS name fails; otherwise 1 exactly when the reported `sysname` equals
the decoded target string. -/
def _check_os (env : Env) (cnt : Nat) : Nat × Nat :=
  if env.unameOk = false then (0, cnt)
  else
    match (_ds env 0 5 cnt).1 with
    | none => (0, cnt + 1)
    | some target => (if env.sysname = target then 1 else 0, cnt + 1)

/-- `_check_marker`: 0 when the decode of the marker path fails;
otherwise 1 exactly when `stat` reports the marker file exists. -/
def _check_marker (env : Env) (cnt : Nat) : Nat × Nat :=
  match (_ds env 5 18 cnt).1 with
  | none => (0, cnt + 1)
  | some _ => (if env.markerExists then 1 else 0, cnt + 1)

/-- `_download`: decode the five command constants (five allocations);
when any decode fails return -1.  Otherwise fork and exec the
downloader: -1 when the fork fails or the child does not exit normally
with status 0, else 0. -/
def _download (env : Env) (cnt : Nat) : Int × Nat :=
  let c1 := (_ds env 37 4 cnt).1
  let c2 := (_ds env 41 29 (cnt + 1)).1
  let c3 := (_ds env 70 2 (cnt + 2)).1
  let c4 := (_ds env 72 15 (cnt + 3)).1
  let c5 := (_ds env 156 9 (cnt + 4)).1
  let r : Int :=
    match c1, c2, c3, c4, c5 with
    | some _, some _, some _, some _, some _ =>
      match env.fetchExit with
      | some status => if status = 0 then 0 else -1
      | none => -1
    | _, _, _, _, _ => -1
  (r, cnt + 5)

/-- `_exec_payload`: decode the three shell constants (three
allocations); when any decode fails return -1.  Otherwise fork and exec
the shell command: 0 exactly when the child exits normally with
status 0, else -1. -/
def _exec_payload (env : Env) (cnt : Nat) : Int × Nat :=
  let c1 := (_ds env 165 7 cnt).1
  let c2 := (_ds env 172 2 (cnt + 1)).1
  let c3 := (_ds env 87 43 (cnt + 2)).1
  let r : Int :=
    match c1, c2, c3 with
    | some _, some _, some _ =>
      match env.execExit with
      | some status => if status = 0 then 0 else -1
      | none => -1
    | _, _, _ => -1
  (r, cnt + 3)

/-! ## Flattened dispatcher (lines 402-533) -/

/-- Dispatch state token `ST_INIT`. -/
def ST_INIT : Nat := 0x7a3c

/-- Dispatch state token `ST_ANTI_DEBUG_1`. -/
def ST_ANTI_DEBUG_1 : Nat := 0x1f82

/-- Dispatch state token `ST_ANTI_DEBUG_2`. -/
def ST_ANTI_DEBUG_2 : Nat := 0x4db1

/-- Dispatch state token `ST_ANTI_DEBUG_3`. -/
def ST_ANTI_DEBUG_3 : Nat := 0x62e9

/-- Dispatch state token `ST_SELF_MODIFY`. -/
def ST_SELF_MODIFY : Nat := 0x35af

/-- Dispatch state token `ST_CHECK_OS`. -/
def ST_CHECK_OS : Nat := 0x58c4

/-- Dispatch state token `ST_CHECK_MARKER`. -/
def ST_CHECK_MARKER : Nat := 0x0d17

/-- Dispatch state token `ST_HIDE_PROC`. -/
def ST_HIDE_PROC : Nat := 0x93be

/-- Dispatch state token `ST_DOWNLOAD`. -/
def ST_DOWNLOAD : Nat := 0xa420

/-- Dispatch state token `ST_EXEC`. -/
def ST_EXEC : Nat := 0xb5f6

/-- Dispatch state token `ST_EXIT_OK` (terminal, returns `retval`). -/
def ST_EXIT_OK : Nat := 0xcccc

/-- Dispatch state token `ST_EXIT_FAIL` (terminal, returns 1). -/
def ST_EXIT_FAIL : Nat := 0xdddd

/-- The mutable state of one dispatch run: the current state token, the
`retval` local, the allocation counter, the behaviour flag, and two
observation flags recording whether `_download` or `_exec_payload` has
been invoked. -/
structure DState where
  st : Nat
  retval : Nat
  cnt : Nat
  smFlag : Bool
  dl : Bool
  ex : Bool

/-- Dispatch state at the top of `main`: `state = ST_INIT`,
`retval = 1`, no allocations, `_sm_flag = 0`, no collaborator calls. -/
def initDState : DState := ⟨ST_INIT, 1, 0, false, false, false⟩

/-- Whether a token is one of the twelve states the switch handles. -/
def knownState (t : Nat) : Bool :=
  t == ST_INIT || t == ST_ANTI_DEBUG_1 || t == ST_ANTI_DEBUG_2 ||
  t == ST_ANTI_DEBUG_3 || t == ST_SELF_MODIFY || t == ST_CHECK_OS ||
  t == ST_CHECK_MARKER || t == ST_HIDE_PROC || t == ST_DOWNLOAD ||
  t == ST_EXEC || t == ST_EXIT_OK || t == ST_EXIT_FAIL

/-- One iteration of the dispatcher `switch` for the ten transient
states, transcribed case for case from `main`; `sentinel` is the pid
captured before the loop.  (The two terminal states and the `default`
trap return from `main` and are handled by `run`.) -/
def step (env : Env) (s : DState) : DState :=
  if s.st = ST_INIT then
    if _opaque_true env.sentinel ≠ 0 then { s with st := ST_ANTI_DEBUG_1 }
    else { s with st := ST_EXIT_FAIL }
  else if s.st = ST_ANTI_DEBUG_1 then
    if _ad_ptrace env ≠ 0 then { s with st := ST_EXIT_FAIL }
    else { s with st := (ST_ANTI_DEBUG_2 ^^^ 0x0000) + 0 }
  else if s.st = ST_ANTI_DEBUG_2 then
    if _ad_timing env ≠ 0 then { s with st := ST_EXIT_FAIL }
    else { s with st := ST_ANTI_DEBUG_3 }
  else if s.st = ST_ANTI_DEBUG_3 then
    if (_ad_proc env s.cnt).1 ≠ 0 then
      { s with st := ST_EXIT_FAIL, cnt := (_ad_proc env s.cnt).2 }
    else { s with st := ST_SELF_MODIFY, cnt := (_ad_proc env s.cnt).2 }
  else if s.st = ST_SELF_MODIFY then
    if _sm_check (_self_modify env.mprotectOk s.smFlag) then
      { s with st := ST_CHECK_OS, smFlag := _self_modify env.mprotectOk s.smFlag }
    else
      { s with st := ST_EXIT_FAIL, smFlag := _self_modify env.mprotectOk s.smFlag }
  else if s.st = ST_CHECK_OS then
    if (_check_os env s.cnt).1 = 0 then
      { s with st := ST_EXIT_FAIL, cnt := (_check_os env s.cnt).2 }
    else if _opaque_false env.sentinel ≠ 0 then
      { s with st := ST_INIT, cnt := (_check_os env s.cnt).2 }
    else
      { s with st := ST_CHECK_MARKER, cnt := (_check_os env s.cnt).2 }
  else if s.st = ST_CHECK_MARKER then
    if (_check_marker env s.cnt).1 ≠ 0 then
      { s with st := ST_EXIT_FAIL, cnt := (_check_marker env s.cnt).2 }
    else { s with st := ST_HIDE_PROC, cnt := (_check_marker env s.cnt).2 }
  else if s.st = ST_HIDE_PROC then
    { s with st := ST_DOWNLOAD, cnt := _hide_proc env s.cnt }
  else if s.st = ST_DOWNLOAD then
    if (_download env s.cnt).1 ≠ 0 then
      { s with st := ST_EXIT_FAIL, cnt := (_download env s.cnt).2, dl := true }
    else { s with st := ST_EXEC, cnt := (_download env s.cnt).2, dl := true }
  else if s.st = ST_EXEC then
    if (_exec_payload env s.cnt).1 = 0 then
      { s with st := ST_EXIT_OK, cnt := (_exec_payload env s.cnt).2,
               ex := true, retval := 0 }
    else
      { s with st := ST_EXIT_OK, cnt := (_exec_payload env s.cnt).2, ex := true }
  else s

/-- The dispatcher `while (1) switch (state)` loop: a terminal state
returns (`ST_EXIT_OK` returns `retval`, `ST_EXIT_FAIL` returns 1), an
unknown token hits the `default` trap and returns 1, and a transient
state takes one `step`.  The fuel bounds the number of state visits;
`none` means the fuel ran out before a return. -/
def run : Nat → Env → DState → Option (Nat × DState)
  | 0, _, _ => none
  | fuel + 1, env, s =>
    if s.st = ST_EXIT_OK then some (s.retval, s)
    else if s.st = ST_EXIT_FAIL then some (1, s)
    else if knownState s.st then run fuel env (step env s)
    else some (1, s)

/-- A full dispatch run from `ST_INIT`: 12 visits are enough to reach a
return because the twelve states are never revisited. -/
def mainRun (env : Env) : Option (Nat × DState) := run 12 env initDState

/-- The process exit code of a run (`none` if the run were cut off). -/
def exitCode (env : Env) : Option Nat :=
  match mainRun env with
  | some r => some r.1
  | none => none

/-- Whether the fetch collaborator `_download` was invoked. -/
def downloadInvoked (env : Env) : Bool :=
  match mainRun env with
  | some r => r.2.dl
  | none => false

/-- Whether the execute collaborator `_exec_payload` was invoked. -/
def execInvoked (env : Env) : Bool :=
  match mainRun env with
  | some r => r.2.ex
  | none => false

/-- Environment for the C3 fetch-failure scenario: no tracer anywhere,
all allocations succeed, `uname` reports the decoded target platform,
the marker is absent, and the downloader child never exits normally. -/
def envFetchFail : Env :=
  ⟨0, false, 0, none, true, true, decodeSlice 0 5, false, fun _ => true,
    none, some 0⟩

/-- Environment for the C3 fetch-success scenario: as `envFetchFail`
but the downloader and the payload child both exit with status 0. -/
def envFetchOk : Env :=
  ⟨0, false, 0, none, true, true, decodeSlice 0 5, false, fun _ => true,
    some 0, some 0⟩

/-- Environment refuting the universal fatality of decode failures:
the very first allocation (the `_ad_proc` status-path decode) is
denied, every later allocation succeeds, no tracer is present, the
platform matches, the marker is absent, and both children succeed. -/
def envAdProcAllocFail : Env :=
  ⟨0, false, 0, none, true, true, decodeSlice 0 5, false, fun n => n != 0,
    some 0, some 0⟩

/-- Environment whose only denied allocation is the `_check_os` decode
(allocation number 2). -/
def envOsAllocFail : Env :=
  ⟨0, false, 0, none, true, true, [], false, fun n => n != 2,
    some 0, some 0⟩

/-- Environment whose only denied allocation is the first `_download`
decode (allocation number 5); the platform check passes. -/
def envDlAllocFail : Env :=
  ⟨0, false, 0, none, true, true, decodeSlice 0 5, false, fun n => n != 5,
    some 0, some 0⟩

/-- Environment whose only denied allocation is the third `_download`
decode (allocation number 7, the `-o` flag); the platform check
passes. -/
def envDl3AllocFail : Env :=
  ⟨0, false, 0, none, true, true, decodeSlice 0 5, false, fun n => n != 7,
    some 0, some 0⟩

/-! ## Lemmas and claim theorems -/

/-- Auxiliary: the cipher state after one `_rc4x` step depends only on
the incoming state, not on the data byte. -/
lemma rc4x_cons (c : RC4) (b : Nat) (rest : List Nat) :
    _rc4x c (b :: rest) =
      ((_rc4x (rc4step c).1 rest).1,
        (b ^^^ (rc4step c).2) :: (_rc4x (rc4step c).1 rest).2) := rfl

/-- Applying `_rc4x` twice from the same starting context restores the
data: the keystream is independent of the data bytes, and XOR is an
involution on each byte. -/
lemma rc4x_involutive (c : RC4) (d : List Nat) :
    (_rc4x c ((_rc4x c d).2)).2 = d := by
  induction d generalizing c with
  | nil => rfl
  | cons b rest ih =>
    simp only [rc4x_cons, Nat.xor_assoc, Nat.xor_self, Nat.xor_zero, ih]

/-- C2: for every non-empty key `k` and every byte sequence `d`,
enciphering twice with independently freshly-initialised cipher states
returns `d` unchanged; both passes are total functions with no failure
conditions. -/
theorem rc4_apply_involutive (k : List Nat) (d : List Nat) (hk : k ≠ []) :
    (_rc4x (_rc4i k) ((_rc4x (_rc4i k) d).2)).2 = d :=
  rc4x_involutive (_rc4i k) d

/-- Witness for C2 at the concrete key `[1, 2, 3]` and data
`[10, 200, 0]`. -/
theorem rc4_apply_involutive_witness :
    ([1, 2, 3] : List Nat) ≠ [] ∧
    (_rc4x (_rc4i [1, 2, 3]) ((_rc4x (_rc4i [1, 2, 3]) [10, 200, 0]).2)).2
      = [10, 200, 0] :=
  ⟨by decide, rc4_apply_involutive [1, 2, 3] [10, 200, 0] (by decide)⟩

/-! ## The RC4 table is always a permutation of 0..255 (claim C6) -/

/-- Auxiliary: replacing `l[i]` by `v` exchanges exactly those two
values in the underlying multiset. -/
lemma set_multiset (l : List Nat) (i v : Nat) (h : i < l.length) :
    ((l.set i v : List Nat) : Multiset Nat) + {l[i]} =
      (l : Multiset Nat) + {v} := by
  rw [List.set_eq_take_cons_drop v h]
  conv_rhs => rw [← List.take_append_drop i l, List.drop_eq_getElem_cons h]
  rw [← Multiset.coe_add, ← Multiset.coe_add, ← Multiset.cons_coe, ← Multiset.cons_coe]
  rw [← Multiset.singleton_add, ← Multiset.singleton_add]
  abel

/-- Auxiliary: the `swapS` element exchange leaves the multiset of table
entries unchanged (it only swaps two in-bounds entries). -/
lemma swapS_multiset (l : List Nat) (a b : Nat) (ha : a < l.length)
    (hb : b < l.length) :
    ((swapS l a b : List Nat) : Multiset Nat) = (l : Multiset Nat) := by
  unfold swapS
  rw [List.getD_eq_getElem l 0 ha, List.getD_eq_getElem l 0 hb]
  have hb1 : b < (l.set a l[b]).length := by
    rw [List.length_set]; exact hb
  have h1 := set_multiset l a l[b] ha
  have h2 := set_multiset (l.set a l[b]) b l[a] hb1
  have hab : (l.set a l[b])[b] = l[b] := by
    rw [List.getElem_set]
    split <;> rfl
  rw [hab] at h2
  have h3 : ((l.set a l[b]).set b l[a] : Multiset Nat) + {l[b]}
      = (l : Multiset Nat) + {l[b]} := by rw [h2, h1]
  exact add_right_cancel h3

/-- Auxiliary: a left fold preserves any invariant preserved by each
step on elements of the folded list. -/
lemma foldl_inv {α : Type} (P : α → Prop) (f : α → Nat → α)
    (l : List Nat) (a : α)
    (hf : ∀ x i, i ∈ l → P x → P (f x i)) (ha : P a) : P (l.foldl f a) := by
  induction l generalizing a with
  | nil => exact ha
  | cons i is ih =>
    exact ih (f a i) (fun x j hj => hf x j (List.mem_cons_of_mem _ hj))
      (hf a i (List.mem_cons_self _ _) ha)

/-- Auxiliary: a multiset-equal copy of `range 256` has length 256. -/
lemma length_of_multiset_range {l : List Nat}
    (h : (l : Multiset Nat) = ((List.range 256 : List Nat) : Multiset Nat)) :
    l.length = 256 := by
  have := congrArg Multiset.card h
  simpa [Multiset.coe_card] using this

/-- Auxiliary: one key-scheduling step preserves the multiset of table
entries. -/
lemma ksaStep_multiset (k : List Nat) :
    ∀ (x : List Nat × Nat) (i : Nat), i ∈ List.range 256 →
      ((x.1 : List Nat) : Multiset Nat) =
        ((List.range 256 : List Nat) : Multiset Nat) →
      (((ksaStep k x i).1 : List Nat) : Multiset Nat) =
        ((List.range 256 : List Nat) : Multiset Nat) := by
  intro x i hi hx
  have hlen : x.1.length = 256 := length_of_multiset_range hx
  have hi2 : i < 256 := List.mem_range.mp hi
  have hj : (x.2 + x.1.getD i 0 + k.getD (i % k.length) 0) &&& 0xFF < 256 :=
    Nat.lt_succ_of_le Nat.and_le_right
  show ((swapS x.1 i _ : List Nat) : Multiset Nat) = _
  rw [swapS_multiset _ _ _ (by rw [hlen]; exact hi2) (by rw [hlen]; exact hj)]
  exact hx

set_option maxHeartbeats 1000000 in
/-- Auxiliary: the key-scheduling fold keeps the table a rearrangement
of `0, 1, ..., 255`. -/
lemma ksa_fold_multiset (k : List Nat) :
    ((((List.range 256).foldl (ksaStep k) (List.range 256, 0)).1 : List Nat) :
        Multiset Nat) =
      ((List.range 256 : List Nat) : Multiset Nat) :=
  foldl_inv
    (fun acc : List Nat × Nat =>
      ((acc.1 : List Nat) : Multiset Nat) =
        ((List.range 256 : List Nat) : Multiset Nat))
    (ksaStep k) (List.range 256) (List.range 256, 0) (ksaStep_multiset k) rfl

/-- The key schedule produces a table whose entries are a rearrangement
of the initial identity table `0, 1, ..., 255`. -/
lemma rc4i_S_multiset (k : List Nat) :
    (((_rc4i k).S : List Nat) : Multiset Nat) =
      ((List.range 256 : List Nat) : Multiset Nat) := by
  simp only [_rc4i]
  exact ksa_fold_multiset k

/-- One keystream step preserves the table multiset. -/
lemma rc4step_S_multiset (c : RC4)
    (h : ((c.S : List Nat) : Multiset Nat) =
      ((List.range 256 : List Nat) : Multiset Nat)) :
    ((((rc4step c).1).S : List Nat) : Multiset Nat) =
      ((List.range 256 : List Nat) : Multiset Nat) := by
  have hlen : c.S.length = 256 := length_of_multiset_range h
  have hi : (c.i + 1) &&& 0xFF < 256 := Nat.lt_succ_of_le Nat.and_le_right
  have hj : (c.j + c.S.getD ((c.i + 1) &&& 0xFF) 0) &&& 0xFF < 256 :=
    Nat.lt_succ_of_le Nat.and_le_right
  show ((swapS c.S _ _ : List Nat) : Multiset Nat) = _
  rw [swapS_multiset _ _ _ (by rw [hlen]; exact hi) (by rw [hlen]; exact hj)]
  exact h

/-- Applying the keystream to any data preserves the table multiset. -/
lemma rc4x_S_multiset (c : RC4) (d : List Nat)
    (h : ((c.S : List Nat) : Multiset Nat) =
      ((List.range 256 : List Nat) : Multiset Nat)) :
    ((((_rc4x c d).1).S : List Nat) : Multiset Nat) =
      ((List.range 256 : List Nat) : Multiset Nat) := by
  induction d generalizing c with
  | nil => exact h
  | cons b rest ih =>
    rw [rc4x_cons]
    exact ih _ (rc4step_S_multiset c h)

/-- C6: after `_rc4i` with any non-empty key the 256-entry table is a
permutation of `0..255`, and `_rc4x` preserves that property (each step
only swaps two entries). -/
theorem rc4_table_is_permutation (k : List Nat) (d : List Nat) (c : RC4)
    (hk : k ≠ []) (hc : c.S.Perm (List.range 256)) :
    ((_rc4i k).S).Perm (List.range 256) ∧
    (((_rc4x c d).1).S).Perm (List.range 256) :=
  ⟨Multiset.coe_eq_coe.mp (rc4i_S_multiset k),
   Multiset.coe_eq_coe.mp (rc4x_S_multiset c d (Multiset.coe_eq_coe.mpr hc))⟩

/-- Witness for C6 at the concrete key `[7]`, data `[1, 2]`, and the
identity table as starting state. -/
theorem rc4_table_is_permutation_witness :
    (([7] : List Nat) ≠ [] ∧
      (RC4.mk (List.range 256) 0 0).S.Perm (List.range 256)) ∧
    ((_rc4i [7]).S).Perm (List.range 256) ∧
    (((_rc4x (RC4.mk (List.range 256) 0 0) [1, 2]).1).S).Perm (List.range 256) :=
  ⟨⟨by decide, List.Perm.refl _⟩,
   rc4_table_is_permutation [7] [1, 2] (RC4.mk (List.range 256) 0 0)
     (by decide) (List.Perm.refl _)⟩

/-! ## Opaque predicate lemmas -/

/-- Auxiliary: twos-complement wrapping preserves parity. -/
lemma wrap32_emod_two (n : Int) : wrap32 n % 2 = n % 2 := by
  unfold wrap32; omega

/-- Auxiliary: C truncated remainder by 2 vanishes exactly on even
integers. -/
lemma tmod_two_eq_zero_iff (n : Int) : n.tmod 2 = 0 ↔ n % 2 = 0 := by
  constructor
  · intro h
    have h2 := Int.tdiv_add_tmod n 2
    omega
  · intro h
    have hn : n = 2 * (n / 2) := by omega
    rw [hn]
    exact Int.mul_tmod_right 2 (n / 2)

/-- Auxiliary: squaring preserves parity. -/
lemma sq_emod_two (x : Int) : x * x % 2 = x % 2 := by
  conv_lhs => rw [Int.mul_emod]
  rcases Int.emod_two_eq x with h | h <;> rw [h] <;> rfl

/-- The opaque predicate `(x * (x + 1)) % 2 == 0` is invariantly true:
`x (x + 1)` is even and wrapping preserves parity. -/
lemma opaque_true_eq (x : Int) : _opaque_true x = 1 := by
  have h1 : wrap32 (x + 1) % 2 = (x + 1) % 2 := wrap32_emod_two _
  have h2 : x * wrap32 (x + 1) % 2 = x % 2 * (wrap32 (x + 1) % 2) % 2 :=
    Int.mul_emod _ _ _
  have heven : wrap32 (x * wrap32 (x + 1)) % 2 = 0 := by
    have h0 : wrap32 (x * wrap32 (x + 1)) % 2 = x * wrap32 (x + 1) % 2 :=
      wrap32_emod_two _
    rcases Int.emod_two_eq x with h | h
    · rw [h] at h2; omega
    · rw [h] at h2; omega
  have hcond : (wrap32 (x * wrap32 (x + 1))).tmod 2 = 0 :=
    (tmod_two_eq_zero_iff _).mpr heven
  unfold _opaque_true
  rw [if_pos hcond]

/-- The opaque predicate `(x * x + x + 1) % 2 == 0` is invariantly
false: `x^2 + x + 1` is odd and wrapping preserves parity. -/
lemma opaque_false_eq (x : Int) : _opaque_false x = 0 := by
  have h1 : wrap32 (x * x) % 2 = x * x % 2 := wrap32_emod_two _
  have h2 : wrap32 (wrap32 (x * x) + x) % 2 = (wrap32 (x * x) + x) % 2 :=
    wrap32_emod_two _
  have h4 : wrap32 (wrap32 (wrap32 (x * x) + x) + 1) % 2 =
      (wrap32 (wrap32 (x * x) + x) + 1) % 2 := wrap32_emod_two _
  have h3 : x * x % 2 = x % 2 := sq_emod_two x
  have hodd : wrap32 (wrap32 (wrap32 (x * x) + x) + 1) % 2 ≠ 0 := by omega
  have hcond : ¬ (wrap32 (wrap32 (wrap32 (x * x) + x) + 1)).tmod 2 = 0 := by
    rw [tmod_two_eq_zero_iff]; exact hodd
  unfold _opaque_false
  rw [if_neg hcond]

/-! ## Key recovery lemmas (claim C7) -/

/-- Auxiliary: `q^2 + q` stays even through wrapping unsigned
arithmetic, so the dead branch of `_recover_key` is never selected. -/
lemma sq_add_self_even (q : Nat) : (q * q % 2 ^ 32 + q) % 2 ^ 32 % 2 = 0 := by
  have h : q * q % 2 = q % 2 := by
    conv_lhs => rw [Nat.mul_mod]
    rcases Nat.mod_two_eq_zero_or_one q with h | h <;> rw [h]
  omega

/-- Auxiliary: after any `_recover_key` call the ready latch is set. -/
lemma recover_key_ready (pid : Nat) (s : KeyState) :
    (_recover_key pid s).key_ready = true := by
  unfold _recover_key
  split
  · assumption
  · rfl

/-- Auxiliary: `_recover_key` is the identity once the latch is set. -/
lemma recover_key_of_ready (pid : Nat) (s : KeyState)
    (h : s.key_ready = true) : _recover_key pid s = s := by
  unfold _recover_key
  rw [if_pos h]

/-- Auxiliary: a first `_recover_key` call fills `_rk` with
`_ks ^ KS_MASK` (the live branch; the opaque guard is always false). -/
lemma recover_key_rk (pid : Nat) (s : KeyState) (h : s.key_ready = false) :
    (_recover_key pid s).rk = _ks.map (fun b => b ^^^ KS_MASK) := by
  unfold _recover_key
  rw [if_neg (by rw [h]; exact Bool.false_ne_true)]
  have hg := sq_add_self_even (pid % 2 ^ 32)
  simp only []
  rw [if_neg (by omega)]

/-- C7: key recovery is idempotent — iterating `_recover_key` any
`n ≥ 1` times from the initial state equals calling it once, the
recovered key is every byte of `_ks` XOR-ed with the fixed mask `0xa5`,
and any call after a first call is a no-op. -/
theorem recover_key_idempotent (pid : Nat) (n : Nat) (s : KeyState)
    (hn : 1 ≤ n) :
    (_recover_key pid)^[n] initKeyState = _recover_key pid initKeyState ∧
    (_recover_key pid initKeyState).rk = _ks.map (fun b => b ^^^ 0xa5) ∧
    _recover_key pid (_recover_key pid s) = _recover_key pid s := by
  have hfix : ∀ (t : KeyState), t.key_ready = true →
      ∀ m, (_recover_key pid)^[m] t = t := by
    intro t ht m
    induction m with
    | zero => rfl
    | succ m ih =>
      rw [Function.iterate_succ_apply, recover_key_of_ready pid t ht]
      exact ih
  refine ⟨?_, ?_, ?_⟩
  · obtain ⟨m, rfl⟩ : ∃ m, n = m + 1 := ⟨n - 1, by omega⟩
    rw [Function.iterate_succ_apply]
    exact hfix _ (recover_key_ready pid initKeyState) m
  · have h := recover_key_rk pid initKeyState rfl
    rw [h]
    rfl
  · exact recover_key_of_ready pid _ (recover_key_ready pid s)

/-- Witness for C7: three iterations at pid 1234 from the initial
state. -/
theorem recover_key_idempotent_witness :
    1 ≤ 3 ∧
    ((_recover_key 1234)^[3] initKeyState = _recover_key 1234 initKeyState ∧
     (_recover_key 1234 initKeyState).rk = _ks.map (fun b => b ^^^ 0xa5) ∧
     _recover_key 1234 (_recover_key 1234 initKeyState) =
       _recover_key 1234 initKeyState) :=
  ⟨by decide, recover_key_idempotent 1234 3 initKeyState (by decide)⟩

/-- C8: the behaviour flag starts 0, `_self_modify` sets it to 1 when
permission elevation succeeds and leaves it unchanged when elevation
fails, repeated calls equal one call, the flag never reverts from 1 to
0, and `_sm_check` reports its current value. -/
theorem sm_flag_monotone_idempotent (ok f : Bool) :
    initDState.smFlag = false ∧
    _self_modify true f = true ∧
    _self_modify false f = f ∧
    _self_modify ok (_self_modify ok f) = _self_modify ok f ∧
    _self_modify ok true = true ∧
    _sm_check f = f := by
  refine ⟨rfl, rfl, rfl, ?_, ?_, rfl⟩ <;> cases ok <;> rfl

/-! ## Dispatcher run characterisation -/

/-- Auxiliary: `_ad_proc` consumes exactly two allocations. -/
lemma ad_proc_snd (env : Env) (cnt : Nat) : (_ad_proc env cnt).2 = cnt + 2 := rfl

/-- Auxiliary: `_hide_proc` consumes exactly one allocation. -/
lemma hide_proc_snd (env : Env) (cnt : Nat) : _hide_proc env cnt = cnt + 1 := rfl

/-- Auxiliary: `_download` consumes exactly five allocations. -/
lemma download_snd (env : Env) (cnt : Nat) : (_download env cnt).2 = cnt + 5 := rfl

/-- Auxiliary: `_exec_payload` consumes exactly three allocations. -/
lemma exec_payload_snd (env : Env) (cnt : Nat) :
    (_exec_payload env cnt).2 = cnt + 3 := rfl

/-- Auxiliary: `_check_marker` consumes exactly one allocation. -/
lemma check_marker_snd (env : Env) (cnt : Nat) :
    (_check_marker env cnt).2 = cnt + 1 := by
  unfold _check_marker
  split <;> rfl

/-- Auxiliary: a passing `_check_os` consumed exactly one allocation
(`uname` must have succeeded to reach the comparison). -/
lemma check_os_snd_of_ne (env : Env) (cnt : Nat)
    (h : (_check_os env cnt).1 ≠ 0) : (_check_os env cnt).2 = cnt + 1 := by
  by_cases hu : env.unameOk = false
  · simp [_check_os, hu] at h
  · rcases hds : (_ds env 0 5 cnt).1 with _ | target
    · simp [_check_os, hu, hds] at h
    · simp [_check_os, hu, hds]

/-- Auxiliary: a run at `ST_EXIT_OK` returns `retval`. -/
lemma run_at_ok (n : Nat) (env : Env) (r c : Nat) (f d e : Bool) :
    run (n + 1) env ⟨ST_EXIT_OK, r, c, f, d, e⟩ =
      some (r, ⟨ST_EXIT_OK, r, c, f, d, e⟩) := by
  simp only [run]
  rw [if_pos trivial]

/-- Auxiliary: a run at `ST_EXIT_FAIL` returns 1. -/
lemma run_at_fail (n : Nat) (env : Env) (r c : Nat) (f d e : Bool) :
    run (n + 1) env ⟨ST_EXIT_FAIL, r, c, f, d, e⟩ =
      some (1, ⟨ST_EXIT_FAIL, r, c, f, d, e⟩) := by
  simp only [run]
  rw [if_neg (show ST_EXIT_FAIL ≠ ST_EXIT_OK by decide), if_pos trivial]

/-- Auxiliary: one dispatcher iteration from a live transient state. -/
lemma run_transient (n : Nat) (env : Env) (t r c : Nat) (f d e : Bool)
    (h1 : t ≠ ST_EXIT_OK) (h2 : t ≠ ST_EXIT_FAIL)
    (h3 : knownState t = true) :
    run (n + 1) env ⟨t, r, c, f, d, e⟩ =
      run n env (step env ⟨t, r, c, f, d, e⟩) := by
  simp only [run]
  rw [if_neg h1, if_neg h2, if_pos h3]

/-- The `ST_INIT` case of `step`, with the state fields laid out. -/
lemma step_at_init (env : Env) (r c : Nat) (f d e : Bool) :
    step env ⟨ST_INIT, r, c, f, d, e⟩ =
      if _opaque_true env.sentinel ≠ 0 then ⟨ST_ANTI_DEBUG_1, r, c, f, d, e⟩
      else ⟨ST_EXIT_FAIL, r, c, f, d, e⟩ := rfl

/-- The `ST_ANTI_DEBUG_1` case of `step`. -/
lemma step_at_ad1 (env : Env) (r c : Nat) (f d e : Bool) :
    step env ⟨ST_ANTI_DEBUG_1, r, c, f, d, e⟩ =
      if _ad_ptrace env ≠ 0 then ⟨ST_EXIT_FAIL, r, c, f, d, e⟩
      else ⟨ST_ANTI_DEBUG_2, r, c, f, d, e⟩ := rfl

/-- The `ST_ANTI_DEBUG_2` case of `step`. -/
lemma step_at_ad2 (env : Env) (r c : Nat) (f d e : Bool) :
    step env ⟨ST_ANTI_DEBUG_2, r, c, f, d, e⟩ =
      if _ad_timing env ≠ 0 then ⟨ST_EXIT_FAIL, r, c, f, d, e⟩
      else ⟨ST_ANTI_DEBUG_3, r, c, f, d, e⟩ := rfl

/-- The `ST_ANTI_DEBUG_3` case of `step` (two allocations). -/
lemma step_at_ad3 (env : Env) (r c : Nat) (f d e : Bool) :
    step env ⟨ST_ANTI_DEBUG_3, r, c, f, d, e⟩ =
      if (_ad_proc env c).1 ≠ 0 then ⟨ST_EXIT_FAIL, r, c + 2, f, d, e⟩
      else ⟨ST_SELF_MODIFY, r, c + 2, f, d, e⟩ := rfl

/-- The `ST_SELF_MODIFY` case of `step`. -/
lemma step_at_sm (env : Env) (r c : Nat) (f d e : Bool) :
    step env ⟨ST_SELF_MODIFY, r, c, f, d, e⟩ =
      if _sm_check (_self_modify env.mprotectOk f) = true then
        ⟨ST_CHECK_OS, r, c, _self_modify env.mprotectOk f, d, e⟩
      else ⟨ST_EXIT_FAIL, r, c, _self_modify env.mprotectOk f, d, e⟩ := rfl

/-- The `ST_CHECK_OS` case of `step`. -/
lemma step_at_os (env : Env) (r c : Nat) (f d e : Bool) :
    step env ⟨ST_CHECK_OS, r, c, f, d, e⟩ =
      if (_check_os env c).1 = 0 then
        ⟨ST_EXIT_FAIL, r, (_check_os env c).2, f, d, e⟩
      else if _opaque_false env.sentinel ≠ 0 then
        ⟨ST_INIT, r, (_check_os env c).2, f, d, e⟩
      else ⟨ST_CHECK_MARKER, r, (_check_os env c).2, f, d, e⟩ := rfl

/-- The `ST_CHECK_MARKER` case of `step`. -/
lemma step_at_marker (env : Env) (r c : Nat) (f d e : Bool) :
    step env ⟨ST_CHECK_MARKER, r, c, f, d, e⟩ =
      if (_check_marker env c).1 ≠ 0 then
        ⟨ST_EXIT_FAIL, r, (_check_marker env c).2, f, d, e⟩
      else ⟨ST_HIDE_PROC, r, (_check_marker env c).2, f, d, e⟩ := rfl

/-- The `ST_HIDE_PROC` case of `step` (one allocation). -/
lemma step_at_hide (env : Env) (r c : Nat) (f d e : Bool) :
    step env ⟨ST_HIDE_PROC, r, c, f, d, e⟩ =
      ⟨ST_DOWNLOAD, r, c + 1, f, d, e⟩ := rfl

/-- The `ST_DOWNLOAD` case of `step` (five allocations). -/
lemma step_at_dl (env : Env) (r c : Nat) (f d e : Bool) :
    step env ⟨ST_DOWNLOAD, r, c, f, d, e⟩ =
      if (_download env c).1 ≠ 0 then ⟨ST_EXIT_FAIL, r, c + 5, f, true, e⟩
      else ⟨ST_EXEC, r, c + 5, f, true, e⟩ := rfl

/-- The `ST_EXEC` case of `step` (three allocations). -/
lemma step_at_exec (env : Env) (r c : Nat) (f d e : Bool) :
    step env ⟨ST_EXEC, r, c, f, d, e⟩ =
      if (_exec_payload env c).1 = 0 then ⟨ST_EXIT_OK, 0, c + 3, f, d, true⟩
      else ⟨ST_EXIT_OK, r, c + 3, f, d, true⟩ := rfl

/-- Dispatch step: `ST_INIT` always moves to `ST_ANTI_DEBUG_1`. -/
lemma runInit (n : Nat) (env : Env) (r c : Nat) (f d e : Bool) :
    run (n + 1) env ⟨ST_INIT, r, c, f, d, e⟩ =
      run n env ⟨ST_ANTI_DEBUG_1, r, c, f, d, e⟩ := by
  rw [run_transient n env ST_INIT r c f d e (by decide) (by decide) (by decide),
    step_at_init, opaque_true_eq, if_pos (show (1 : Int) ≠ 0 by decide)]

/-- Dispatch step: a clear trace-attach probe moves on. -/
lemma runAd1Clear (env : Env) (h : _ad_ptrace env = 0) (n : Nat)
    (r c : Nat) (f d e : Bool) :
    run (n + 1) env ⟨ST_ANTI_DEBUG_1, r, c, f, d, e⟩ =
      run n env ⟨ST_ANTI_DEBUG_2, r, c, f, d, e⟩ := by
  rw [run_transient n env ST_ANTI_DEBUG_1 r c f d e (by decide) (by decide) (by decide),
    step_at_ad1, if_neg (show ¬(_ad_ptrace env ≠ 0) from not_not_intro h)]

/-- Dispatch step: a detected trace-attach probe aborts. -/
lemma runAd1Hit (env : Env) (h : _ad_ptrace env ≠ 0) (n : Nat)
    (r c : Nat) (f d e : Bool) :
    run (n + 1) env ⟨ST_ANTI_DEBUG_1, r, c, f, d, e⟩ =
      run n env ⟨ST_EXIT_FAIL, r, c, f, d, e⟩ := by
  rw [run_transient n env ST_ANTI_DEBUG_1 r c f d e (by decide) (by decide) (by decide),
    step_at_ad1, if_pos h]

/-- Dispatch step: a clear timing probe moves on. -/
lemma runAd2Clear (env : Env) (h : _ad_timing env = 0) (n : Nat)
    (r c : Nat) (f d e : Bool) :
    run (n + 1) env ⟨ST_ANTI_DEBUG_2, r, c, f, d, e⟩ =
      run n env ⟨ST_ANTI_DEBUG_3, r, c, f, d, e⟩ := by
  rw [run_transient n env ST_ANTI_DEBUG_2 r c f d e (by decide) (by decide) (by decide),
    step_at_ad2, if_neg (show ¬(_ad_timing env ≠ 0) from not_not_intro h)]

/-- Dispatch step: a detected timing probe aborts. -/
lemma runAd2Hit (env : Env) (h : _ad_timing env ≠ 0) (n : Nat)
    (r c : Nat) (f d e : Bool) :
    run (n + 1) env ⟨ST_ANTI_DEBUG_2, r, c, f, d, e⟩ =
      run n env ⟨ST_EXIT_FAIL, r, c, f, d, e⟩ := by
  rw [run_transient n env ST_ANTI_DEBUG_2 r c f d e (by decide) (by decide) (by decide),
    step_at_ad2, if_pos h]

/-- Dispatch step: a clear tracer-metadata probe moves on, consuming
two allocations. -/
lemma runAd3Clear (env : Env) (h : (_ad_proc env 0).1 = 0) (n : Nat)
    (r : Nat) (f d e : Bool) :
    run (n + 1) env ⟨ST_ANTI_DEBUG_3, r, 0, f, d, e⟩ =
      run n env ⟨ST_SELF_MODIFY, r, 2, f, d, e⟩ := by
  rw [run_transient n env ST_ANTI_DEBUG_3 r 0 f d e (by decide) (by decide) (by decide),
    step_at_ad3, if_neg (show ¬((_ad_proc env 0).1 ≠ 0) from not_not_intro h)]
  all_goals rfl

/-- Dispatch step: a detected tracer-metadata probe aborts, consuming
two allocations. -/
lemma runAd3Hit (env : Env) (h : (_ad_proc env 0).1 ≠ 0) (n : Nat)
    (r : Nat) (f d e : Bool) :
    run (n + 1) env ⟨ST_ANTI_DEBUG_3, r, 0, f, d, e⟩ =
      run n env ⟨ST_EXIT_FAIL, r, 2, f, d, e⟩ := by
  rw [run_transient n env ST_ANTI_DEBUG_3 r 0 f d e (by decide) (by decide) (by decide),
    step_at_ad3, if_pos h]
  all_goals rfl

/-- Dispatch step: successful permission elevation sets the flag and
passes self-verification. -/
lemma runSmOk (env : Env) (h : env.mprotectOk = true) (n : Nat)
    (r c : Nat) (d e : Bool) :
    run (n + 1) env ⟨ST_SELF_MODIFY, r, c, false, d, e⟩ =
      run n env ⟨ST_CHECK_OS, r, c, true, d, e⟩ := by
  rw [run_transient n env ST_SELF_MODIFY r c false d e (by decide) (by decide) (by decide),
    step_at_sm, h,
    if_pos (show _sm_check (_self_modify true false) = true from rfl)]
  all_goals rfl

/-- Dispatch step: failed permission elevation leaves the flag 0 and
self-verification aborts. -/
lemma runSmFail (env : Env) (h : env.mprotectOk = false) (n : Nat)
    (r c : Nat) (d e : Bool) :
    run (n + 1) env ⟨ST_SELF_MODIFY, r, c, false, d, e⟩ =
      run n env ⟨ST_EXIT_FAIL, r, c, false, d, e⟩ := by
  rw [run_transient n env ST_SELF_MODIFY r c false d e (by decide) (by decide) (by decide),
    step_at_sm, h,
    if_neg (show ¬(_sm_check (_self_modify false false) = true) from
      Bool.false_ne_true)]
  all_goals rfl

/-- Dispatch step: a matching platform check moves on (the decoy edge
back to `ST_INIT` is dead), consuming one allocation. -/
lemma runOsPass (env : Env) (h : (_check_os env 2).1 ≠ 0) (n : Nat)
    (r : Nat) (f d e : Bool) :
    run (n + 1) env ⟨ST_CHECK_OS, r, 2, f, d, e⟩ =
      run n env ⟨ST_CHECK_MARKER, r, 3, f, d, e⟩ := by
  rw [run_transient n env ST_CHECK_OS r 2 f d e (by decide) (by decide) (by decide),
    step_at_os, if_neg h, opaque_false_eq,
    if_neg (show ¬((0 : Int) ≠ 0) from not_not_intro rfl),
    check_os_snd_of_ne env 2 h]
  all_goals rfl

/-- Dispatch step: a failing platform check aborts. -/
lemma runOsFail (env : Env) (h : (_check_os env 2).1 = 0) (n : Nat)
    (r : Nat) (f d e : Bool) :
    run (n + 1) env ⟨ST_CHECK_OS, r, 2, f, d, e⟩ =
      run n env ⟨ST_EXIT_FAIL, r, (_check_os env 2).2, f, d, e⟩ := by
  rw [run_transient n env ST_CHECK_OS r 2 f d e (by decide) (by decide) (by decide),
    step_at_os, if_pos h]

/-- Dispatch step: an absent marker moves on, consuming one
allocation. -/
lemma runMarkerClear (env : Env) (h : (_check_marker env 3).1 = 0) (n : Nat)
    (r : Nat) (f d e : Bool) :
    run (n + 1) env ⟨ST_CHECK_MARKER, r, 3, f, d, e⟩ =
      run n env ⟨ST_HIDE_PROC, r, 4, f, d, e⟩ := by
  rw [run_transient n env ST_CHECK_MARKER r 3 f d e (by decide) (by decide) (by decide),
    step_at_marker,
    if_neg (show ¬((_check_marker env 3).1 ≠ 0) from not_not_intro h),
    check_marker_snd env 3]
  all_goals rfl

/-- Dispatch step: a present marker aborts, consuming one
allocation. -/
lemma runMarkerHit (env : Env) (h : (_check_marker env 3).1 ≠ 0) (n : Nat)
    (r : Nat) (f d e : Bool) :
    run (n + 1) env ⟨ST_CHECK_MARKER, r, 3, f, d, e⟩ =
      run n env ⟨ST_EXIT_FAIL, r, 4, f, d, e⟩ := by
  rw [run_transient n env ST_CHECK_MARKER r 3 f d e (by decide) (by decide) (by decide),
    step_at_marker, if_pos h, check_marker_snd env 3]
  all_goals rfl

/-- Dispatch step: the advisory concealment step always moves on,
consuming one allocation. -/
lemma runHide (n : Nat) (env : Env) (r : Nat) (f d e : Bool) :
    run (n + 1) env ⟨ST_HIDE_PROC, r, 4, f, d, e⟩ =
      run n env ⟨ST_DOWNLOAD, r, 5, f, d, e⟩ := by
  rw [run_transient n env ST_HIDE_PROC r 4 f d e (by decide) (by decide) (by decide),
    step_at_hide]
  all_goals rfl

/-- Dispatch step: a successful fetch records the call and moves to
execution, consuming five allocations. -/
lemma runDlOk (env : Env) (h : (_download env 5).1 = 0) (n : Nat)
    (r : Nat) (f e : Bool) :
    run (n + 1) env ⟨ST_DOWNLOAD, r, 5, f, false, e⟩ =
      run n env ⟨ST_EXEC, r, 10, f, true, e⟩ := by
  rw [run_transient n env ST_DOWNLOAD r 5 f false e (by decide) (by decide) (by decide),
    step_at_dl, if_neg (show ¬((_download env 5).1 ≠ 0) from not_not_intro h)]
  all_goals rfl

/-- Dispatch step: a failed fetch records the call and aborts,
consuming five allocations. -/
lemma runDlFail (env : Env) (h : (_download env 5).1 ≠ 0) (n : Nat)
    (r : Nat) (f e : Bool) :
    run (n + 1) env ⟨ST_DOWNLOAD, r, 5, f, false, e⟩ =
      run n env ⟨ST_EXIT_FAIL, r, 10, f, true, e⟩ := by
  rw [run_transient n env ST_DOWNLOAD r 5 f false e (by decide) (by decide) (by decide),
    step_at_dl, if_pos h]
  all_goals rfl

/-- Dispatch step: successful execution sets `retval` to 0 and moves
to `ST_EXIT_OK`, consuming three allocations. -/
lemma runExecOk (env : Env) (h : (_exec_payload env 10).1 = 0) (n : Nat)
    (r : Nat) (f d : Bool) :
    run (n + 1) env ⟨ST_EXEC, r, 10, f, d, false⟩ =
      run n env ⟨ST_EXIT_OK, 0, 13, f, d, true⟩ := by
  rw [run_transient n env ST_EXEC r 10 f d false (by decide) (by decide) (by decide),
    step_at_exec, if_pos h]
  all_goals rfl

/-- Dispatch step: failed execution leaves `retval` alone and still
moves to `ST_EXIT_OK`, consuming three allocations. -/
lemma runExecFail (env : Env) (h : (_exec_payload env 10).1 ≠ 0) (n : Nat)
    (r : Nat) (f d : Bool) :
    run (n + 1) env ⟨ST_EXEC, r, 10, f, d, false⟩ =
      run n env ⟨ST_EXIT_OK, r, 13, f, d, true⟩ := by
  rw [run_transient n env ST_EXEC r 10 f d false (by decide) (by decide) (by decide),
    step_at_exec, if_neg h]
  all_goals rfl

/-- The complete case analysis of one dispatch run: the exit code and
final dispatch state as a decision tree over the guard outcomes, the
self-verification outcome, the platform and marker checks, and the two
collaborator calls, in the order the dispatcher consults them. -/
lemma mainRun_eq (env : Env) :
    mainRun env =
      if _ad_ptrace env ≠ 0 then
        some (1, ⟨ST_EXIT_FAIL, 1, 0, false, false, false⟩)
      else if _ad_timing env ≠ 0 then
        some (1, ⟨ST_EXIT_FAIL, 1, 0, false, false, false⟩)
      else if (_ad_proc env 0).1 ≠ 0 then
        some (1, ⟨ST_EXIT_FAIL, 1, 2, false, false, false⟩)
      else if env.mprotectOk = false then
        some (1, ⟨ST_EXIT_FAIL, 1, 2, false, false, false⟩)
      else if (_check_os env 2).1 = 0 then
        some (1, ⟨ST_EXIT_FAIL, 1, (_check_os env 2).2, true, false, false⟩)
      else if (_check_marker env 3).1 ≠ 0 then
        some (1, ⟨ST_EXIT_FAIL, 1, 4, true, false, false⟩)
      else if (_download env 5).1 ≠ 0 then
        some (1, ⟨ST_EXIT_FAIL, 1, 10, true, true, false⟩)
      else if (_exec_payload env 10).1 = 0 then
        some (0, ⟨ST_EXIT_OK, 0, 13, true, true, true⟩)
      else
        some (1, ⟨ST_EXIT_OK, 1, 13, true, true, true⟩) := by
  by_cases h1 : _ad_ptrace env ≠ 0
  · rw [if_pos h1]
    show run 12 env ⟨ST_INIT, 1, 0, false, false, false⟩ = _
    rw [runInit, runAd1Hit env h1, run_at_fail]
  · have h1z : _ad_ptrace env = 0 := by omega
    rw [if_neg h1]
    by_cases h2 : _ad_timing env ≠ 0
    · rw [if_pos h2]
      show run 12 env ⟨ST_INIT, 1, 0, false, false, false⟩ = _
      rw [runInit, runAd1Clear env h1z, runAd2Hit env h2, run_at_fail]
    · have h2z : _ad_timing env = 0 := by omega
      rw [if_neg h2]
      by_cases h3 : (_ad_proc env 0).1 ≠ 0
      · rw [if_pos h3]
        show run 12 env ⟨ST_INIT, 1, 0, false, false, false⟩ = _
        rw [runInit, runAd1Clear env h1z, runAd2Clear env h2z,
          runAd3Hit env h3, run_at_fail]
      · have h3z : (_ad_proc env 0).1 = 0 := by omega
        rw [if_neg h3]
        by_cases h4 : env.mprotectOk = false
        · rw [if_pos h4]
          show run 12 env ⟨ST_INIT, 1, 0, false, false, false⟩ = _
          rw [runInit, runAd1Clear env h1z, runAd2Clear env h2z,
            runAd3Clear env h3z, runSmFail env h4, run_at_fail]
        · have h4t : env.mprotectOk = true := by
            revert h4; cases env.mprotectOk <;> simp
          rw [if_neg h4]
          by_cases h5 : (_check_os env 2).1 = 0
          · rw [if_pos h5]
            show run 12 env ⟨ST_INIT, 1, 0, false, false, false⟩ = _
            rw [runInit, runAd1Clear env h1z, runAd2Clear env h2z,
              runAd3Clear env h3z, runSmOk env h4t, runOsFail env h5,
              run_at_fail]
          · rw [if_neg h5]
            by_cases h6 : (_check_marker env 3).1 ≠ 0
            · rw [if_pos h6]
              show run 12 env ⟨ST_INIT, 1, 0, false, false, false⟩ = _
              rw [runInit, runAd1Clear env h1z, runAd2Clear env h2z,
                runAd3Clear env h3z, runSmOk env h4t, runOsPass env h5,
                runMarkerHit env h6, run_at_fail]
            · have h6z : (_check_marker env 3).1 = 0 := by omega
              rw [if_neg h6]
              by_cases h7 : (_download env 5).1 ≠ 0
              · rw [if_pos h7]
                show run 12 env ⟨ST_INIT, 1, 0, false, false, false⟩ = _
                rw [runInit, runAd1Clear env h1z, runAd2Clear env h2z,
                  runAd3Clear env h3z, runSmOk env h4t, runOsPass env h5,
                  runMarkerClear env h6z, runHide, runDlFail env h7,
                  run_at_fail]
              · have h7z : (_download env 5).1 = 0 := by omega
                rw [if_neg h7]
                by_cases h8 : (_exec_payload env 10).1 = 0
                · rw [if_pos h8]
                  show run 12 env ⟨ST_INIT, 1, 0, false, false, false⟩ = _
                  rw [runInit, runAd1Clear env h1z, runAd2Clear env h2z,
                    runAd3Clear env h3z, runSmOk env h4t, runOsPass env h5,
                    runMarkerClear env h6z, runHide, runDlOk env h7z,
                    runExecOk env h8, run_at_ok]
                · rw [if_neg h8]
                  show run 12 env ⟨ST_INIT, 1, 0, false, false, false⟩ = _
                  rw [runInit, runAd1Clear env h1z, runAd2Clear env h2z,
                    runAd3Clear env h3z, runSmOk env h4t, runOsPass env h5,
                    runMarkerClear env h6z, runHide, runDlOk env h7z,
                    runExecFail env h8, run_at_ok]

/-- Auxiliary: conclusions shared by every aborting run, packaged from
an explicit final state. -/
lemma conclusions_of_fail (env : Env) (R : DState)
    (hm : mainRun env = some (1, R)) (hst : R.st = ST_EXIT_FAIL)
    (hdl : R.dl = false) (hex : R.ex = false) :
    exitCode env = some 1 ∧ downloadInvoked env = false ∧
    execInvoked env = false ∧
    (∃ s, mainRun env = some (1, s) ∧ s.st = ST_EXIT_FAIL) := by
  refine ⟨?_, ?_, ?_, ⟨R, hm, hst⟩⟩ <;>
    simp [exitCode, downloadInvoked, execInvoked, hm, hdl, hex]

/-- C1: whenever any of the three guard probes reports detection
(returns nonzero), the run reaches `ST_EXIT_FAIL`, the process exit
code is 1, and neither `_download` nor `_exec_payload` is ever
invoked. -/
theorem guard_detected_aborts (env : Env)
    (h : _ad_ptrace env ≠ 0 ∨ _ad_timing env ≠ 0 ∨ (_ad_proc env 0).1 ≠ 0) :
    exitCode env = some 1 ∧ downloadInvoked env = false ∧
    execInvoked env = false ∧
    (∃ s, mainRun env = some (1, s) ∧ s.st = ST_EXIT_FAIL) := by
  by_cases h1 : _ad_ptrace env ≠ 0
  · exact conclusions_of_fail env _ (by rw [mainRun_eq env]; simp [h1]; rfl) rfl rfl rfl
  · by_cases h2 : _ad_timing env ≠ 0
    · exact conclusions_of_fail env _
        (by rw [mainRun_eq env]; simp [h1, h2]; rfl) rfl rfl rfl
    · have h3 : (_ad_proc env 0).1 ≠ 0 := by tauto
      exact conclusions_of_fail env _
        (by rw [mainRun_eq env]; simp [h1, h2, h3]; rfl) rfl rfl rfl

/-- Witness for C1: a run whose trace-attach probe reports detection. -/
theorem guard_detected_aborts_witness :
    (_ad_ptrace
        ⟨0, true, 0, none, true, true, [], false, fun _ => true,
          some 0, some 0⟩ ≠ 0 ∨
      _ad_timing
        ⟨0, true, 0, none, true, true, [], false, fun _ => true,
          some 0, some 0⟩ ≠ 0 ∨
      (_ad_proc
        ⟨0, true, 0, none, true, true, [], false, fun _ => true,
          some 0, some 0⟩ 0).1 ≠ 0) ∧
    (exitCode
        ⟨0, true, 0, none, true, true, [], false, fun _ => true,
          some 0, some 0⟩ = some 1 ∧
      downloadInvoked
        ⟨0, true, 0, none, true, true, [], false, fun _ => true,
          some 0, some 0⟩ = false ∧
      execInvoked
        ⟨0, true, 0, none, true, true, [], false, fun _ => true,
          some 0, some 0⟩ = false ∧
      (∃ s, mainRun
          ⟨0, true, 0, none, true, true, [], false, fun _ => true,
            some 0, some 0⟩ = some (1, s) ∧ s.st = ST_EXIT_FAIL)) :=
  ⟨Or.inl (by decide),
   guard_detected_aborts _ (Or.inl (by decide))⟩

/-- C5: when all three guards report clear and the dispatched
`_check_marker` call reports that the infection marker exists, the exit
code is 1 and neither `_download` nor `_exec_payload` is invoked. -/
theorem marker_present_aborts (env : Env)
    (hg1 : _ad_ptrace env = 0) (hg2 : _ad_timing env = 0)
    (hg3 : (_ad_proc env 0).1 = 0)
    (hm : (_check_marker env 3).1 ≠ 0) :
    exitCode env = some 1 ∧ downloadInvoked env = false ∧
    execInvoked env = false := by
  have h1 : ¬ _ad_ptrace env ≠ 0 := by omega
  have h2 : ¬ _ad_timing env ≠ 0 := by omega
  have h3 : ¬ (_ad_proc env 0).1 ≠ 0 := by omega
  by_cases h4 : env.mprotectOk = false
  · obtain ⟨a, b, c, -⟩ := conclusions_of_fail env _
      (by rw [mainRun_eq env]; simp [h1, h2, h3, h4]; rfl) rfl rfl rfl
    exact ⟨a, b, c⟩
  · by_cases h5 : (_check_os env 2).1 = 0
    · obtain ⟨a, b, c, -⟩ := conclusions_of_fail env _
        (by rw [mainRun_eq env]; simp [h1, h2, h3, h4, h5]; rfl) rfl rfl rfl
      exact ⟨a, b, c⟩
    · obtain ⟨a, b, c, -⟩ := conclusions_of_fail env _
        (by rw [mainRun_eq env]; simp [h1, h2, h3, h4, h5, hm]; rfl) rfl rfl rfl
      exact ⟨a, b, c⟩

/-- Witness for C5: guards all clear (no tracer anywhere) and the
marker file present. -/
theorem marker_present_aborts_witness :
    (_ad_ptrace
        ⟨0, false, 0, none, true, true, [], true, fun _ => true,
          some 0, some 0⟩ = 0 ∧
      _ad_timing
        ⟨0, false, 0, none, true, true, [], true, fun _ => true,
          some 0, some 0⟩ = 0 ∧
      (_ad_proc
        ⟨0, false, 0, none, true, true, [], true, fun _ => true,
          some 0, some 0⟩ 0).1 = 0 ∧
      (_check_marker
        ⟨0, false, 0, none, true, true, [], true, fun _ => true,
          some 0, some 0⟩ 3).1 ≠ 0) ∧
    (exitCode
        ⟨0, false, 0, none, true, true, [], true, fun _ => true,
          some 0, some 0⟩ = some 1 ∧
      downloadInvoked
        ⟨0, false, 0, none, true, true, [], true, fun _ => true,
          some 0, some 0⟩ = false ∧
      execInvoked
        ⟨0, false, 0, none, true, true, [], true, fun _ => true,
          some 0, some 0⟩ = false) :=
  ⟨⟨by decide, by decide, by decide, by decide⟩,
   marker_present_aborts _ (by decide) (by decide) (by decide) (by decide)⟩

/-- C10: the dispatcher loop terminates for every assignment of
collaborator outcomes: twelve state visits always suffice to reach a
return, since the only backward edge is guarded by the invariantly
false opaque predicate and every other edge moves forward. -/
theorem dispatcher_terminates (env : Env) : (mainRun env).isSome = true := by
  rw [mainRun_eq]
  split_ifs <;> rfl

/-- C9: the decoy edges are never taken: `_opaque_true` returns 1 and
`_opaque_false` returns 0 for every int (wrapping arithmetic), so from
`ST_INIT` the dispatcher always moves to `ST_ANTI_DEBUG_1` (never
`ST_EXIT_FAIL`), and from `ST_CHECK_OS` it never moves back to
`ST_INIT`. -/
theorem opaque_decoy_edges_unreachable (x : Int) (env : Env) (s : DState) :
    _opaque_true x = 1 ∧ _opaque_false x = 0 ∧
    (step env { s with st := ST_INIT }).st = ST_ANTI_DEBUG_1 ∧
    (step env { s with st := ST_CHECK_OS }).st ≠ ST_INIT := by
  refine ⟨opaque_true_eq x, opaque_false_eq x, ?_, ?_⟩
  · simp [step, opaque_true_eq]
  · by_cases h : (_check_os env s.cnt).1 = 0
    · simp [step, h, opaque_false_eq, ST_INIT, ST_ANTI_DEBUG_1, ST_ANTI_DEBUG_2,
        ST_ANTI_DEBUG_3, ST_SELF_MODIFY, ST_CHECK_OS, ST_CHECK_MARKER,
        ST_HIDE_PROC, ST_DOWNLOAD, ST_EXEC, ST_EXIT_OK, ST_EXIT_FAIL]
    · simp [step, h, opaque_false_eq, ST_INIT, ST_ANTI_DEBUG_1, ST_ANTI_DEBUG_2,
        ST_ANTI_DEBUG_3, ST_SELF_MODIFY, ST_CHECK_OS, ST_CHECK_MARKER,
        ST_HIDE_PROC, ST_DOWNLOAD, ST_EXEC, ST_EXIT_OK, ST_EXIT_FAIL]

/-- C3: in every run that invokes `_download` (reaches `ST_DOWNLOAD`,
which calls it unconditionally): if the fetch fails the exit code is 1
and `_exec_payload` is never invoked; if the fetch succeeds the run
always terminates in `ST_EXIT_OK` having invoked `_exec_payload`, and
the exit code is 0 exactly when `_exec_payload` reported success. -/
theorem download_outcome_routing (env : Env)
    (h : downloadInvoked env = true) :
    ((_download env 5).1 ≠ 0 →
      exitCode env = some 1 ∧ execInvoked env = false) ∧
    ((_download env 5).1 = 0 →
      ∃ s, mainRun env =
          some ((if (_exec_payload env 10).1 = 0 then 0 else 1), s) ∧
        s.st = ST_EXIT_OK ∧ s.ex = true ∧
        (exitCode env = some 0 ↔ (_exec_payload env 10).1 = 0)) := by
  by_cases h1 : _ad_ptrace env ≠ 0
  · simp [downloadInvoked, mainRun_eq env, h1] at h
  · by_cases h2 : _ad_timing env ≠ 0
    · simp [downloadInvoked, mainRun_eq env, h1, h2] at h
    · by_cases h3 : (_ad_proc env 0).1 ≠ 0
      · simp [downloadInvoked, mainRun_eq env, h1, h2, h3] at h
      · by_cases h4 : env.mprotectOk = false
        · simp [downloadInvoked, mainRun_eq env, h1, h2, h3, h4] at h
        · by_cases h5 : (_check_os env 2).1 = 0
          · simp [downloadInvoked, mainRun_eq env, h1, h2, h3, h4, h5] at h
          · by_cases h6 : (_check_marker env 3).1 ≠ 0
            · simp [downloadInvoked, mainRun_eq env, h1, h2, h3, h4, h5, h6] at h
            · by_cases h7 : (_download env 5).1 ≠ 0
              · refine ⟨fun _ => ⟨?_, ?_⟩, fun h0 => absurd h0 h7⟩
                · simp [exitCode, mainRun_eq env, h1, h2, h3, h4, h5, h6, h7]
                · simp [execInvoked, mainRun_eq env, h1, h2, h3, h4, h5, h6, h7]
              · have h7z : (_download env 5).1 = 0 := by omega
                refine ⟨fun hne => absurd h7z hne, fun _ => ?_⟩
                by_cases h8 : (_exec_payload env 10).1 = 0
                · refine ⟨⟨ST_EXIT_OK, 0, 13, true, true, true⟩, ?_, rfl, rfl, ?_⟩
                  · rw [mainRun_eq env]
                    simp [h1, h2, h3, h4, h5, h6, h7, h8]
                  · refine ⟨fun _ => h8, fun _ => ?_⟩
                    simp [exitCode, mainRun_eq env, h1, h2, h3, h4, h5, h6, h7, h8]
                · refine ⟨⟨ST_EXIT_OK, 1, 13, true, true, true⟩, ?_, rfl, rfl, ?_⟩
                  · rw [mainRun_eq env]
                    simp [h1, h2, h3, h4, h5, h6, h7, h8]
                  · refine ⟨fun hc => ?_, fun h0 => absurd h0 h8⟩
                    simp [exitCode, mainRun_eq env, h1, h2, h3, h4, h5, h6, h7, h8] at hc

/-- Auxiliary: `_check_os` reports a match when `uname` succeeds, the
allocation is granted, and the reported sysname is the decoded target
(no evaluation of the cipher is needed: both sides are the same
decode). -/
lemma check_os_pass_of_sysname (env : Env) (cnt : Nat)
    (hu : env.unameOk = true) (ha : env.alloc cnt = true)
    (hs : env.sysname = decodeSlice 0 5) :
    (_check_os env cnt).1 = 1 := by
  unfold _check_os _ds
  simp [hu, ha, hs]

/-- Auxiliary: the fetch-failure environment reaches `ST_DOWNLOAD`. -/
lemma downloadInvoked_envFetchFail : downloadInvoked envFetchFail = true := by
  have g1 : _ad_ptrace envFetchFail = 0 := rfl
  have g2 : _ad_timing envFetchFail = 0 := rfl
  have g3 : (_ad_proc envFetchFail 0).1 = 0 := rfl
  have g4 : envFetchFail.mprotectOk = true := rfl
  have g5 : (_check_os envFetchFail 2).1 = 1 :=
    check_os_pass_of_sysname _ 2 rfl rfl rfl
  have g6 : (_check_marker envFetchFail 3).1 = 0 := rfl
  have g7 : (_download envFetchFail 5).1 = -1 := rfl
  simp [downloadInvoked, mainRun_eq envFetchFail, g1, g2, g3, g4, g5, g6, g7]

/-- Auxiliary: the fetch-success environment reaches `ST_DOWNLOAD`. -/
lemma downloadInvoked_envFetchOk : downloadInvoked envFetchOk = true := by
  have g1 : _ad_ptrace envFetchOk = 0 := rfl
  have g2 : _ad_timing envFetchOk = 0 := rfl
  have g3 : (_ad_proc envFetchOk 0).1 = 0 := rfl
  have g4 : envFetchOk.mprotectOk = true := rfl
  have g5 : (_check_os envFetchOk 2).1 = 1 :=
    check_os_pass_of_sysname _ 2 rfl rfl rfl
  have g6 : (_check_marker envFetchOk 3).1 = 0 := rfl
  have g7 : (_download envFetchOk 5).1 = 0 := rfl
  have g8 : (_exec_payload envFetchOk 10).1 = 0 := rfl
  simp [downloadInvoked, mainRun_eq envFetchOk, g1, g2, g3, g4, g5, g6, g7, g8]

/-- Witness for C3: one run whose fetch fails (exit 1, no execute) and
one whose fetch succeeds (terminates at `ST_EXIT_OK`). -/
theorem download_outcome_routing_witness :
    (downloadInvoked envFetchFail = true ∧
      (_download envFetchFail 5).1 ≠ 0 ∧
      (exitCode envFetchFail = some 1 ∧ execInvoked envFetchFail = false)) ∧
    (downloadInvoked envFetchOk = true ∧
      (_download envFetchOk 5).1 = 0 ∧
      ∃ s, mainRun envFetchOk =
          some ((if (_exec_payload envFetchOk 10).1 = 0 then 0 else 1), s) ∧
        s.st = ST_EXIT_OK ∧ s.ex = true ∧
        (exitCode envFetchOk = some 0 ↔ (_exec_payload envFetchOk 10).1 = 0)) :=
  ⟨⟨downloadInvoked_envFetchFail, by decide,
    (download_outcome_routing envFetchFail downloadInvoked_envFetchFail).1
      (by decide)⟩,
   ⟨downloadInvoked_envFetchOk, by decide,
    (download_outcome_routing envFetchOk downloadInvoked_envFetchOk).2
      (by decide)⟩⟩

/-- Auxiliary: exit-code and execute-flag conclusions of a failing
run. -/
lemma exit_one_of_fail (env : Env) (R : DState)
    (hm : mainRun env = some (1, R)) (hex : R.ex = false) :
    exitCode env = some 1 ∧ execInvoked env = false := by
  constructor <;> simp [exitCode, execInvoked, hm, hex]

/-- Auxiliary: when the allocation for the `_check_os` decode is
denied, the platform check reports no match. -/
lemma check_os_zero_of_alloc (env : Env) (h : env.alloc 2 = false) :
    (_check_os env 2).1 = 0 := by
  unfold _check_os _ds
  by_cases hu : env.unameOk = false
  · simp [hu]
  · simp [hu, h]

/-- Auxiliary: when the allocation for any one of the five `_download`
decodes (allocation numbers 5 to 9 of a reachable run) is denied, the
fetch reports failure. -/
lemma download_fail_of_alloc (env : Env) (i : Nat) (h5 : 5 ≤ i)
    (h10 : i < 10) (h : env.alloc i = false) : (_download env 5).1 = -1 := by
  have hi : i = 5 ∨ i = 6 ∨ i = 7 ∨ i = 8 ∨ i = 9 := by omega
  simp only [_download, _ds]
  rcases hi with rfl | rfl | rfl | rfl | rfl
  · rw [h]
    rfl
  · rw [show env.alloc (5 + 1) = false from h]
    cases h5a : env.alloc 5 <;> rfl
  · rw [show env.alloc (5 + 2) = false from h]
    cases h5a : env.alloc 5 <;> cases h6a : env.alloc (5 + 1) <;> rfl
  · rw [show env.alloc (5 + 3) = false from h]
    cases h5a : env.alloc 5 <;> cases h6a : env.alloc (5 + 1) <;>
      cases h7a : env.alloc (5 + 2) <;> rfl
  · rw [show env.alloc (5 + 4) = false from h]
    cases h5a : env.alloc 5 <;> cases h6a : env.alloc (5 + 1) <;>
      cases h7a : env.alloc (5 + 2) <;> cases h8a : env.alloc (5 + 3) <;> rfl

/-- Auxiliary: a run whose platform check reports no match aborts with
exit code 1 and no collaborator calls, whatever else happens. -/
lemma abort_before_download (env : Env) (hE : (_check_os env 2).1 = 0) :
    exitCode env = some 1 ∧ downloadInvoked env = false ∧
    execInvoked env = false := by
  by_cases h1 : _ad_ptrace env ≠ 0
  · obtain ⟨a, b, c, -⟩ := conclusions_of_fail env _
      (by rw [mainRun_eq env]; simp [h1]; rfl) rfl rfl rfl
    exact ⟨a, b, c⟩
  · by_cases h2 : _ad_timing env ≠ 0
    · obtain ⟨a, b, c, -⟩ := conclusions_of_fail env _
        (by rw [mainRun_eq env]; simp [h1, h2]; rfl) rfl rfl rfl
      exact ⟨a, b, c⟩
    · by_cases h3 : (_ad_proc env 0).1 ≠ 0
      · obtain ⟨a, b, c, -⟩ := conclusions_of_fail env _
          (by rw [mainRun_eq env]; simp [h1, h2, h3]; rfl) rfl rfl rfl
        exact ⟨a, b, c⟩
      · by_cases h4 : env.mprotectOk = false
        · obtain ⟨a, b, c, -⟩ := conclusions_of_fail env _
            (by rw [mainRun_eq env]; simp [h1, h2, h3, h4]; rfl) rfl rfl rfl
          exact ⟨a, b, c⟩
        · obtain ⟨a, b, c, -⟩ := conclusions_of_fail env _
            (by rw [mainRun_eq env]; simp [h1, h2, h3, h4, hE]; rfl) rfl rfl rfl
          exact ⟨a, b, c⟩

/-- Auxiliary: a run whose fetch reports failure (for whatever reason)
exits with code 1 without ever invoking `_exec_payload`, whatever else
happens. -/
lemma exit_one_of_download_fail (env : Env) (hG : (_download env 5).1 ≠ 0) :
    exitCode env = some 1 ∧ execInvoked env = false := by
  by_cases h1 : _ad_ptrace env ≠ 0
  · exact exit_one_of_fail env _ (by rw [mainRun_eq env]; simp [h1]; rfl) rfl
  · by_cases h2 : _ad_timing env ≠ 0
    · exact exit_one_of_fail env _
        (by rw [mainRun_eq env]; simp [h1, h2]; rfl) rfl
    · by_cases h3 : (_ad_proc env 0).1 ≠ 0
      · exact exit_one_of_fail env _
          (by rw [mainRun_eq env]; simp [h1, h2, h3]; rfl) rfl
      · by_cases h4 : env.mprotectOk = false
        · exact exit_one_of_fail env _
            (by rw [mainRun_eq env]; simp [h1, h2, h3, h4]; rfl) rfl
        · by_cases h5 : (_check_os env 2).1 = 0
          · exact exit_one_of_fail env _
              (by rw [mainRun_eq env]; simp [h1, h2, h3, h4, h5]; rfl) rfl
          · by_cases h6 : (_check_marker env 3).1 ≠ 0
            · exact exit_one_of_fail env _
                (by rw [mainRun_eq env]; simp [h1, h2, h3, h4, h5, h6]; rfl) rfl
            · exact exit_one_of_fail env _
                (by rw [mainRun_eq env]; simp [h1, h2, h3, h4, h5, h6, hG]; rfl) rfl

/-- C4 (amended): allocation failure is the only failure path of `_ds`
(it returns `none`, never crashes); a decode failure during `_check_os`
(its single decode, allocation number 2) or during `_download` (any of
its five decodes, allocation numbers 5 to 9) is fatal (exit code 1,
and the execute collaborator is never reached); decode failures at the
other call sites are tolerated by the dispatcher and do not by
themselves end the run in `ST_EXIT_FAIL`. -/
theorem ds_alloc_failure_routing (env : Env) (off len cnt : Nat) :
    ((_ds env off len cnt).1 = none ↔ env.alloc cnt = false) ∧
    (env.alloc 2 = false →
      exitCode env = some 1 ∧ downloadInvoked env = false ∧
      execInvoked env = false) ∧
    (∀ i, 5 ≤ i → i < 10 → env.alloc i = false →
      exitCode env = some 1 ∧ execInvoked env = false) := by
  refine ⟨?_, ?_, ?_⟩
  · unfold _ds
    cases h : env.alloc cnt <;> simp [h]
  · intro h
    exact abort_before_download env (check_os_zero_of_alloc env h)
  · intro i h5 h10 h
    refine exit_one_of_download_fail env ?_
    rw [download_fail_of_alloc env i h5 h10 h]
    decide

/-- Counterexample to C4 as stated: this run suffers an allocation
failure while decoding a resource (`_ds` returns `none` inside
`_ad_proc`), yet the dispatcher proceeds downstream and the process
terminates at `ST_EXIT_OK` with exit code 0, not `ST_EXIT_FAIL` with
exit code 1. -/
theorem decode_failure_not_fatal_counterexample :
    (_ds envAdProcAllocFail 130 17 0).1 = none ∧
    exitCode envAdProcAllocFail = some 0 ∧
    (∃ s, mainRun envAdProcAllocFail = some (0, s) ∧ s.st = ST_EXIT_OK) := by
  have g1 : _ad_ptrace envAdProcAllocFail = 0 := rfl
  have g2 : _ad_timing envAdProcAllocFail = 0 := rfl
  have g3 : (_ad_proc envAdProcAllocFail 0).1 = 0 := rfl
  have g4 : envAdProcAllocFail.mprotectOk = true := rfl
  have g5 : (_check_os envAdProcAllocFail 2).1 = 1 :=
    check_os_pass_of_sysname _ 2 rfl rfl rfl
  have g6 : (_check_marker envAdProcAllocFail 3).1 = 0 := rfl
  have g7 : (_download envAdProcAllocFail 5).1 = 0 := rfl
  have g8 : (_exec_payload envAdProcAllocFail 10).1 = 0 := rfl
  refine ⟨rfl, ?_, ⟨⟨ST_EXIT_OK, 0, 13, true, true, true⟩, ?_, rfl⟩⟩
  · simp [exitCode, mainRun_eq envAdProcAllocFail, g1, g2, g3, g4, g5, g6, g7, g8]
  · rw [mainRun_eq envAdProcAllocFail]
    simp [g1, g2, g3, g4, g5, g6, g7, g8]

/-- Witness for the amended C4: a run aborted by an allocation failure
in `_check_os`, a run aborted by a failure of the first `_download`
decode (allocation number 5), and a run aborted by a failure of a
middle `_download` decode (allocation number 7). -/
theorem ds_alloc_failure_routing_witness :
    ((_ds envOsAllocFail 0 5 2).1 = none ↔ envOsAllocFail.alloc 2 = false) ∧
    envOsAllocFail.alloc 2 = false ∧
    (exitCode envOsAllocFail = some 1 ∧
      downloadInvoked envOsAllocFail = false ∧
      execInvoked envOsAllocFail = false) ∧
    (5 ≤ 5 ∧ 5 < 10 ∧ envDlAllocFail.alloc 5 = false) ∧
    (exitCode envDlAllocFail = some 1 ∧ execInvoked envDlAllocFail = false) ∧
    (5 ≤ 7 ∧ 7 < 10 ∧ envDl3AllocFail.alloc 7 = false) ∧
    (exitCode envDl3AllocFail = some 1 ∧ execInvoked envDl3AllocFail = false) :=
  ⟨(ds_alloc_failure_routing envOsAllocFail 0 5 2).1,
   by decide,
   (ds_alloc_failure_routing envOsAllocFail 0 5 2).2.1 (by decide),
   ⟨by decide, by decide, by decide⟩,
   (ds_alloc_failure_routing envDlAllocFail 0 0 0).2.2 5
     (by decide) (by decide) (by decide),
   ⟨by decide, by decide, by decide⟩,
   (ds_alloc_failure_routing envDl3AllocFail 0 0 0).2.2 7
     (by decide) (by decide) (by decide)⟩
